import Mathlib

/-!
Shallow embedding of `src/backend/main.py` (MonitorNetwork), covering the
event fan-out (`ConnectionManager`), the command runner (`run_command`),
the VPN tunnel manager (`ensure_vpn_up` / `release_vpn`), the alert
evaluator (`check_and_trigger_alerts`), the ping and ethernet probe
cycles (`run_ping_monitor` / `run_ethernet_monitor`, one loop body each),
the `avg-rtt` parsing, and the VPN-profile update endpoint
(`update_vpn_profile`).  Asynchronous I/O (database, RouterOS API calls,
shell commands, WebSocket sends) is abstracted into explicit inputs and
outputs; machine behaviour of each function is translated line by line.
-/

namespace MonitorNetwork

/-- Association-list lookup, the embedding of Python `dict.get` for the
process-wide dictionaries (`VPN_STATE`, `last_alert_times`,
`last_known_statuses`).  An update is embedded as a prepend, so the most
recent binding wins, matching dictionary assignment. -/
def alookup {α β : Type} [DecidableEq α] : List (α × β) → α → Option β
  | [], _ => none
  | (k, v) :: t, a => if a = k then some v else alookup t a

/-- Python string truthiness for an optional string (`None` and `""` are
falsy). -/
def isTruthy (o : Option String) : Bool :=
  match o with
  | none => false
  | some s => s ≠ ""

/-- Python `a or b` on optional strings: `a` when truthy, else `b`. -/
def pyOr (a b : Option String) : Option String :=
  match a with
  | none => b
  | some s => if s = "" then b else some s

/-- Lower-casing of a string, as Python `str.lower` on the ASCII strings
the program compares. -/
def strLower (s : String) : String := String.mk (s.data.map Char.toLower)

/-- Python `str.strip()` on the character list: drop leading and
trailing whitespace. -/
def stripChars (cs : List Char) : List Char :=
  ((cs.dropWhile Char.isWhitespace).reverse.dropWhile Char.isWhitespace).reverse

/-- Python `s.strip().lower()` on an optional owner id, with
`str(owner_id) if owner_id is not None else ""` in front: the
normalization both `ConnectionManager.connect` and
`ConnectionManager.broadcast_for` apply (main.py lines 667 and 689). -/
def normalizeOwner (o : Option String) : String :=
  strLower (String.mk (stripChars (o.getD "").data))

-- ==========================================================
-- run_command (main.py lines 463-498)
-- ==========================================================

/-- Outcome of the underlying `subprocess.run` call: a completed process
with exit code, stdout and stderr; a `FileNotFoundError` (missing
executable, carrying `command[0]`); or any other exception with its
message. -/
inductive ProcResult : Type
  | completed (returncode : Int) (stdout stderr : String)
  | fileNotFound (cmd0 : String)
  | otherError (msg : String)

/-- `run_command` (main.py 463-498) as a function of the process outcome.
Exit code 0 yields `(True, stdout)`; a non-zero exit yields
`(False, stderr or stdout)` (Python `or`: stdout when stderr is empty);
`FileNotFoundError` and any other exception are caught and yield
`(False, message)`.  Totality of this function is the embedding of
"never raises". -/
def run_command : ProcResult → Bool × String
  | .completed rc out err =>
      if rc = 0 then (true, out)
      else (false, if err = "" then out else err)
  | .fileNotFound c => (false, "Error: comando no encontrado: " ++ c)
  | .otherError m => (false, m)

-- ==========================================================
-- avg-rtt parsing inside run_ping_monitor (main.py lines 1010-1019)
-- ==========================================================

/-- Numeric value of a decimal digit character. -/
def digitVal (c : Char) : Nat := c.toNat - '0'.toNat

/-- Value of a list of decimal digit characters, as Python `int` on the
matched group. -/
def digitsVal (l : List Char) : Nat :=
  l.foldl (fun a c => a * 10 + digitVal c) 0

/-- Scanner for Python `re.search(r"(\d+)" + sfx, s)` where `sfx` is a
literal suffix starting with a non-digit (here `"s"` or `"ms"`): find the
leftmost maximal digit run immediately followed by `sfx` and return its
value.  `acc` carries the value of the digit run currently being read.
Backtracking inside the digit group can never help for such suffixes
(shrinking the group leaves a digit where the non-digit suffix must
start), so leftmost-greedy matching coincides with this run-based scan. -/
def searchAux (sfx : List Char) (acc : Option Nat) : List Char → Option Nat
  | [] => none
  | c :: rest =>
    if c.isDigit then searchAux sfx (some ((acc.getD 0) * 10 + digitVal c)) rest
    else
      match acc with
      | some n => if sfx.isPrefixOf (c :: rest) then some n else searchAux sfx none rest
      | none => searchAux sfx none rest

/-- `re.search(r"(\d+)" + sfx, cs)` returning the numeric value of the
first group, `none` when there is no match. -/
def searchNumThen (sfx : List Char) (cs : List Char) : Option Nat :=
  searchAux sfx none cs

/-- The avg-rtt parsing of `run_ping_monitor` (main.py 1010-1019) on the
character list of `time_str`: `seconds`/`millis` default to 0 when their
regex does not match, and the latency is `seconds * 1000 + millis`. -/
def parseAvgRttL (cs : List Char) : Nat :=
  let seconds := (searchNumThen ['s'] cs).getD 0
  let millis := (searchNumThen ['m', 's'] cs).getD 0
  seconds * 1000 + millis

/-- The avg-rtt parsing on a string. -/
def parseAvgRtt (s : String) : Nat := parseAvgRttL s.data

-- ==========================================================
-- Event fan-out: ConnectionManager (main.py lines 661-732)
-- ==========================================================

/-- One connected WebSocket sink: an identity for the socket object, the
owner id stored at connect time, and `websocket.scope["subs"]`:
`none` models `subs is None` (subscribe_all), `some l` an explicit set of
sensor ids (`some []` is the "empty, not yet chosen" state set at
connect). -/
structure Sink where
  ws : Nat
  oid : String
  subs : Option (List Nat)
  deriving DecidableEq, Repr

/-- `ConnectionManager.connect` (main.py 666-672): the sink is registered
with the normalized owner id and an empty subscription set. -/
def connectSink (ws : Nat) (ownerId : Option String) : Sink :=
  ⟨ws, normalizeOwner ownerId, some []⟩

/-- The broadcast payload as far as `broadcast_for` inspects it:
`json.loads(message).get("sensor_id", None)`. -/
structure BroadcastMsg where
  sensor_id : Option Nat
  deriving Repr

/-- Fallback-pass predicate of `broadcast_for` (main.py 721): deliver
when `subs is None` or `subs` is an empty set or contains `sid`. -/
def fallbackEligible (sid : Nat) (s : Sink) : Bool :=
  match s.subs with
  | none => true
  | some l => l.isEmpty || sid ∈ l

/-- `ConnectionManager.broadcast_for` (main.py 684-732) with all sends
succeeding: returns the sinks delivered to in the first (owner-matching)
pass and in the fallback pass.  The first pass delivers to every sink
whose stored owner id equals the normalized target; the fallback pass
runs only when the first pass delivered to nobody and the payload carries
a `sensor_id`, and then filters by subscription alone, ignoring the
tenant. -/
def broadcast_for (sinks : List Sink) (ownerId : Option String)
    (msg : BroadcastMsg) : List Sink × List Sink :=
  let target := normalizeOwner ownerId
  let firstPass := sinks.filter (fun s => s.oid = target)
  let fallback :=
    if firstPass.length = 0 then
      match msg.sensor_id with
      | some sid => sinks.filter (fallbackEligible sid)
      | none => []
    else []
  (firstPass, fallback)

-- ==========================================================
-- Alert evaluator: check_and_trigger_alerts (main.py lines 804-876)
-- ==========================================================

/-- The `result` dict as the evaluator reads it, one optional field per
key it may access.  `latency_ms = none` stands for an absent key (the
evaluator's `result.get("latency_ms", 0)` then reads 0); the ping error
path stores `None` under the key, but that value is only ever compared on
the `status == "ok"` branch, which that path cannot take. -/
structure ResultDict where
  status : Option String := none
  latency_ms : Option Int := none
  speed : Option String := none
  rx_bitrate : Option String := none
  tx_bitrate : Option String := none
  deriving Repr

/-- Python `int(x)` on the optional bitrate strings, with the `get`
default 0 for an absent key.  The program only ever stores decimal digit
strings (RouterOS values or the literal "0") under these keys. -/
def pyIntD (o : Option String) : Int :=
  match o with
  | none => 0
  | some s => (s.toNat?).getD 0

/-- One entry of `sensor.config["alerts"]`; optional keys carry the
`dict.get` defaults used by the evaluator (`cooldown_minutes` 5,
`threshold_ms` 0, `threshold_mbps` 0, `direction` "any"). -/
structure AlertCfg where
  atype : String
  channel_id : Nat := 0
  cooldown_minutes : Int := 5
  threshold_ms : Int := 0
  threshold_mbps : Int := 0
  direction : String := "any"
  deriving Repr

/-- The process-wide alert memory: `last_alert_times` keyed by
`(sensor_id, alert type)` (times as integer seconds), and the `"speed"`
entries of `last_known_statuses`, keyed by sensor id. -/
structure AlertState where
  lastAlertTimes : List ((Nat × String) × Int) := []
  lastSpeeds : List (Nat × String) := []
  deriving DecidableEq, Repr

/-- One notification fire: `send_notification(channel_id, …)` is called,
one AlertRecord row is inserted for `channel_id`, and `last_fire` for
`(sensor_id, atype)` is set, all together (main.py 860-873). -/
structure Fire where
  atype : String
  channel_id : Nat
  deriving DecidableEq, Repr

/-- The trigger decision of the `elif` chain (main.py 826-858) for one
alert, given the current state. -/
def evalTrigger (sensor_id : Nat) (result : ResultDict) (st : AlertState)
    (a : AlertCfg) : Bool :=
  if a.atype = "timeout" then result.status = some "timeout"
  else if a.atype = "high_latency" then
    result.status = some "ok" && (result.latency_ms.getD 0 > a.threshold_ms)
  else if a.atype = "speed_change" then
    match alookup st.lastSpeeds sensor_id with
    | none => false
    | some lastSpeed => result.speed ≠ some lastSpeed
  else if a.atype = "traffic_threshold" then
    let thr := a.threshold_mbps * 1000000
    let rx := pyIntD result.rx_bitrate
    let tx := pyIntD result.tx_bitrate
    ((a.direction = "any" || a.direction = "rx") && rx > thr) ||
      ((a.direction = "any" || a.direction = "tx") && tx > thr)
  else false

/-- One iteration of the evaluator's `for alert in alert_configs` loop
(main.py 816-873): skip when the cooldown has not elapsed, otherwise
decide the trigger and, when it fires, record the notification and set
`last_fire = now`. -/
def processAlert (sensor_id : Nat) (now : Int) (result : ResultDict)
    (acc : AlertState × List Fire) (a : AlertCfg) : AlertState × List Fire :=
  let (st, fires) := acc
  let key := (sensor_id, a.atype)
  let underCooldown : Bool :=
    match alookup st.lastAlertTimes key with
    | some t => now - t < a.cooldown_minutes * 60
    | none => false
  if underCooldown then (st, fires)
  else if evalTrigger sensor_id result st a then
    ({ st with lastAlertTimes := (key, now) :: st.lastAlertTimes },
      fires ++ [⟨a.atype, a.channel_id⟩])
  else (st, fires)

/-- `check_and_trigger_alerts` (main.py 804-876): an empty (or absent)
alerts list returns immediately; otherwise the loop runs over the alerts
and afterwards, if the result dict has a `"speed"` key, `last_speed` for
the sensor is updated — the early return skips that update too. -/
def check_and_trigger_alerts (sensor_id : Nat) (result : ResultDict)
    (alerts : List AlertCfg) (now : Int) (st : AlertState) :
    AlertState × List Fire :=
  if alerts.isEmpty then (st, [])
  else
    let r := alerts.foldl (processAlert sensor_id now result) (st, [])
    let st2 :=
      match result.speed with
      | some v => { r.1 with lastSpeeds := (sensor_id, v) :: r.1.lastSpeeds }
      | none => r.1
    (st2, r.2)

-- ==========================================================
-- VPN tunnel manager (main.py lines 503-593)
-- ==========================================================

/-- One `VPN_STATE` entry. -/
structure VpnSt where
  iface : String := ""
  conf_path : String := ""
  refcount : Nat := 0
  up : Bool := false
  deriving DecidableEq, Repr

/-- The process-wide `VPN_STATE` dictionary. -/
def VpnState : Type := List (Nat × VpnSt)

/-- Deterministic interface name `m360-p<profile_id>` (main.py 505). -/
def iface_name_for_profile (profile_id : Nat) : String :=
  "m360-p" ++ toString profile_id

/-- Config path: the interface name plus ".conf" (the temp-dir prefix is
abstracted away, main.py 508). -/
def conf_path_for_profile (profile_id : Nat) : String :=
  iface_name_for_profile profile_id ++ ".conf"

/-- Outcomes of the external effects `ensure_vpn_up` performs, in
program order: the `ip link show` confirmation for an already-up state,
whether the profile row exists, whether writing the config file works,
the three wg-quick/wg command results, and whether any of the 30 polls
sees the interface UP. -/
structure VpnEnv where
  confirmUp : Bool
  profileExists : Bool
  writeOk : Bool
  wgUpOk : Bool
  wgShowOk : Bool
  wgUpRetryOk : Bool
  pollUp : Bool
  deriving Repr

/-- The four raising exits of `ensure_vpn_up` (all HTTPException in the
source). -/
inductive VpnError : Type
  | notFound
  | writeFailed
  | activationFailed
  | notUp
  deriving DecidableEq, Repr

/-- The bring-up tail of `ensure_vpn_up` (main.py 539-574): load the
profile, write the config, run `wg-quick up` with the `wg show` /
retry fallback, then poll; on the first UP poll the state entry is
rewritten with `refcount = prev + 1` and `up = True`, where `prev` is
the pre-existing refcount (0 when there was no entry). -/
def vpn_bringup (env : VpnEnv) (state : VpnState) (profile_id : Nat)
    (prev : Nat) : Except VpnError (VpnState × String) :=
  if !env.profileExists then .error .notFound
  else if !env.writeOk then .error .writeFailed
  else if !(env.wgUpOk || env.wgShowOk || env.wgUpRetryOk) then
    .error .activationFailed
  else if env.pollUp then
    .ok ((profile_id,
      ⟨iface_name_for_profile profile_id, conf_path_for_profile profile_id,
        prev + 1, true⟩) :: state,
      iface_name_for_profile profile_id)
  else .error .notUp

/-- `ensure_vpn_up` (main.py 526-574): when the recorded state says the
tunnel is up and `ip link show` confirms it, only the refcount is
incremented; otherwise the confirm failure marks the state down and the
bring-up path runs, preserving the previous refcount. -/
def ensure_vpn_up (env : VpnEnv) (state : VpnState) (profile_id : Nat) :
    Except VpnError (VpnState × String) :=
  match alookup state profile_id with
  | some s =>
    if s.up then
      if env.confirmUp then
        .ok ((profile_id, { s with refcount := s.refcount + 1 }) :: state,
          iface_name_for_profile profile_id)
      else
        vpn_bringup env ((profile_id, { s with up := false }) :: state)
          profile_id s.refcount
    else vpn_bringup env state profile_id s.refcount
  | none => vpn_bringup env state profile_id 0

/-- `release_vpn` (main.py 576-581): no recorded state is a no-op;
otherwise the refcount is decremented with a floor of 0 (Python
`max(0, refcount - 1)`, here Nat subtraction) and nothing else changes —
in particular the tunnel is never torn down. -/
def release_vpn (state : VpnState) (profile_id : Nat) : VpnState :=
  match alookup state profile_id with
  | none => state
  | some s =>
    (profile_id, { s with refcount := s.refcount - 1 }) :: state

-- ==========================================================
-- Ping probe cycle (main.py lines 986-1081)
-- ==========================================================

/-- The first row of the RouterOS `/ping` reply as the cycle reads it. -/
structure PingRow where
  received : Option String := none
  avgRtt : Option String := none
  deriving Repr

/-- Input of one ping cycle body: either the API call returned a row
list, or some step of the cycle raised (connection setup, credentials,
the call itself, persistence of the success sample, …). -/
inductive PingCycleInput : Type
  | api (rows : List PingRow)
  | exc
  deriving Repr

/-- The persisted `result_data` of one ping cycle. -/
structure PingResult where
  status : String
  latency_ms : Option Nat
  deriving DecidableEq, Repr

/-- One body of the `run_ping_monitor` loop (main.py 986-1081) reduced
to the sample it persists: `current_latency` starts at 9999.0, a reply
whose first row has `received == "1"` parses `avg-rtt` (default "0ms")
and classifies against the visual threshold, any other reply (including
an empty row list) keeps 9999.0 with status "timeout", and the exception
handler persists `{status: "timeout", latency_ms: None}`. -/
def runPingCycleResult (inp : PingCycleInput) (threshold : Nat) : PingResult :=
  match inp with
  | .exc => ⟨"timeout", none⟩
  | .api rows =>
    match rows with
    | [] => ⟨"timeout", some 9999⟩
    | r :: _ =>
      if r.received = some "1" then
        let lat := parseAvgRtt (r.avgRtt.getD "0ms")
        ⟨if lat > threshold then "high_latency" else "ok", some lat⟩
      else ⟨"timeout", some 9999⟩

/-- The WebSocket payload built from a cycle's `result_data` (main.py
1031-1036 and 1057-1065): sensor id, kind tag and the same status and
latency fields, timestamp abstracted away. -/
structure PingEvent where
  sensor_id : Nat
  sensor_type : String
  status : String
  latency_ms : Option Nat
  deriving DecidableEq, Repr

/-- The broadcast event for a ping sample carries exactly the persisted
values (`**result_data` splicing). -/
def pingBroadcast (sensor_id : Nat) (res : PingResult) : PingEvent :=
  ⟨sensor_id, "ping", res.status, res.latency_ms⟩

-- ==========================================================
-- Ethernet probe cycle (main.py lines 1099-1229)
-- ==========================================================

/-- First row of `/interface/ethernet monitor`. -/
structure EthMonRow where
  status : Option String := none
  rate : Option String := none
  speed : Option String := none
  deriving Repr

/-- First row of the ROS6 fallback `/interface/ethernet get`. -/
structure EthGetRow where
  running : Option String := none
  speed : Option String := none
  deriving Repr

/-- First row of `/interface monitor-traffic`. -/
structure TrafficRow where
  rx : Option String := none
  tx : Option String := none
  deriving Repr

/-- Input of one ethernet cycle body: a hard failure before the probes
(connection setup, credentials), or the three probe calls' outcomes,
`none` meaning that call raised (each has its own try/except). -/
inductive EthCycleInput : Type
  | hardFail
  | calls (mon : Option (List EthMonRow)) (ethGet : Option (List EthGetRow))
      (traffic : Option (List TrafficRow))

/-- The persisted `result_data` of one ethernet cycle. -/
structure EthResult where
  status : String
  speed : String
  rx_bitrate : String
  tx_bitrate : String
  deriving DecidableEq, Repr

/-- `_parse_link_up` (main.py 1093-1097). -/
def parse_link_up (val : Option String) : Bool :=
  match val with
  | none => false
  | some v =>
    let s := strLower v
    s = "link-ok" || s = "link_ok" || s = "ok" || s = "up" || s = "running"
      || s = "true" || s = "yes"

/-- One body of the `run_ethernet_monitor` loop (main.py 1100-1229)
reduced to the sample it persists.  `result_data` starts as
`{status: "error", speed: "N/A", rx: "0", tx: "0"}`; the ROS7 monitor
row sets the link status and, when a truthy `rate` (or `speed`) is
present, the speed; otherwise the ROS6 `get` fallback sets status from
`running` truthiness and keeps the speed unless the row carries a truthy
one; the traffic call fills the bitrates with "0" fallbacks; a hard
failure persists the degraded `link_down` sample.  Note the `"speed"`
key is always present in the persisted dict — a cycle that learns no
rate reports the placeholder "N/A", not an absent key. -/
def runEthCycleResult (inp : EthCycleInput) : EthResult :=
  match inp with
  | .hardFail => ⟨"link_down", "N/A", "0", "0"⟩
  | .calls mon ethGet traffic =>
    let r0 : EthResult := ⟨"error", "N/A", "0", "0"⟩
    let step1 : EthResult × Bool :=
      match mon with
      | some (m :: _) =>
        let st := if parse_link_up m.status then "link_up" else "link_down"
        let rate := pyOr m.rate m.speed
        if isTruthy rate then
          ({ r0 with status := st, speed := rate.getD "N/A" }, true)
        else ({ r0 with status := st }, false)
      | _ => (r0, false)
    let r1 := step1.1
    let r2 :=
      if step1.2 then r1
      else
        match ethGet with
        | some (d :: _) =>
          let st := if isTruthy d.running then "link_up" else "link_down"
          let sp :=
            match d.speed with
            | none => r1.speed
            | some s => if s = "" then r1.speed else s
          { r1 with status := st, speed := sp }
        | _ => r1
    match traffic with
    | some (t :: _) =>
      { r2 with
        rx_bitrate := (pyOr t.rx (some "0")).getD "0",
        tx_bitrate := (pyOr t.tx (some "0")).getD "0" }
    | _ => r2

/-- An ethernet cycle's `result_data` as the alert evaluator receives it:
all four keys present. -/
def ethResultDict (e : EthResult) : ResultDict :=
  { status := some e.status, latency_ms := none, speed := some e.speed,
    rx_bitrate := some e.rx_bitrate, tx_bitrate := some e.tx_bitrate }

-- ==========================================================
-- VPN profile update endpoint (main.py lines 1884-1902)
-- ==========================================================

/-- One `vpn_profiles` row. -/
structure VpnProfileRow where
  id : Nat
  owner_id : String
  name : String := ""
  config_data : String := ""
  check_ip : String := ""
  is_default : Bool := false
  deriving DecidableEq, Repr

/-- The `VpnProfileUpdate` body after `dict(exclude_unset=True)`: `none`
models an unset field. -/
structure VpnProfileUpd where
  name : Option String := none
  config_data : Option String := none
  check_ip : Option String := none
  is_default : Option Bool := none
  deriving Repr

/-- Apply the SQL `UPDATE … VALUES(**update_data)` to one row: each set
field overwrites, each unset field is kept. -/
def applyProfileUpd (u : VpnProfileUpd) (p : VpnProfileRow) : VpnProfileRow :=
  { p with
    name := u.name.getD p.name,
    config_data := u.config_data.getD p.config_data,
    check_ip := u.check_ip.getD p.check_ip,
    is_default := u.is_default.getD p.is_default }

/-- `update_vpn_profile` (main.py 1884-1902) on the table of profile
rows: when the update sets `is_default` to True, first clear
`is_default` on every row of the tenant, then apply the update to the
rows matching both the profile id and the tenant. -/
def update_vpn_profile (db : List VpnProfileRow) (profile_id : Nat)
    (u : VpnProfileUpd) (owner_id : String) : List VpnProfileRow :=
  let db1 :=
    if u.is_default = some true then
      db.map (fun p =>
        if p.owner_id = owner_id then { p with is_default := false } else p)
    else db
  db1.map (fun p =>
    if p.id = profile_id ∧ p.owner_id = owner_id then applyProfileUpd u p
    else p)

/-- At most one profile of tenant `owner` is default: any two default
rows of the tenant carry the same profile id. -/
def atMostOneDefault (owner : String) (db : List VpnProfileRow) : Prop :=
  ∀ p ∈ db, ∀ q ∈ db, p.owner_id = owner → q.owner_id = owner →
    p.is_default = true → q.is_default = true → p.id = q.id

-- ==========================================================
-- Helper lemmas
-- ==========================================================

/-- Prepending a binding for a key makes lookup return it. -/
theorem alookup_cons_self {α β : Type} [DecidableEq α] (l : List (α × β))
    (a : α) (b : β) : alookup ((a, b) :: l) a = some b := by
  simp [alookup]

/-- Prepending a binding for a different key leaves lookup unchanged. -/
theorem alookup_cons_ne {α β : Type} [DecidableEq α] (l : List (α × β))
    (a k : α) (b : β) (h : a ≠ k) : alookup ((k, b) :: l) a = alookup l a := by
  simp [alookup, h]

/-- The fold of `processAlert` never touches `lastSpeeds`. -/
theorem foldl_processAlert_lastSpeeds (l : List AlertCfg) (sid : Nat)
    (now : Int) (rd : ResultDict) (acc : AlertState × List Fire) :
    (l.foldl (processAlert sid now rd) acc).1.lastSpeeds = acc.1.lastSpeeds := by
  induction l generalizing acc with
  | nil => rfl
  | cons b l ih =>
    rw [List.foldl_cons, ih]
    rcases acc with ⟨st, fires⟩
    simp only [processAlert]
    split
    · rfl
    · split <;> rfl

-- ==========================================================
-- C1
-- ==========================================================

/-- C1 counterexample: with a single connected sink of tenant "t" whose
explicit subscription set is {5}, publishing an event with sensor_id 7
to tenant "t" delivers to that sink in the first (non-fallback) pass,
although 7 is not in its subscription set — refuting the claim that the
first pass filters by subscription. -/
theorem broadcast_first_pass_ignores_subscription_cex :
    (⟨0, "t", some [5]⟩ : Sink) ∈
      (broadcast_for [⟨0, "t", some [5]⟩] (some "t") ⟨some 7⟩).1 ∧
    (7 : Nat) ∉ [5] := by decide

/-- C1 (amended): the first (non-fallback) pass of
`publish(tenant, event)` delivers exactly to the connected sinks whose
normalized tenant matches, regardless of their subscription; subscription
filtering happens only in the fallback pass. -/
theorem broadcast_first_pass_iff_tenant_match (sinks : List Sink)
    (ownerId : Option String) (msg : BroadcastMsg) (s : Sink) :
    s ∈ (broadcast_for sinks ownerId msg).1 ↔
      s ∈ sinks ∧ s.oid = normalizeOwner ownerId := by
  simp [broadcast_for, List.mem_filter]

-- ==========================================================
-- C10
-- ==========================================================

/-- C10: tenant matching in the event fan-out is performed on normalized
owner ids: `connect` stores the trimmed, lower-cased owner id, and a sink
registered by `connect` receives an event in the tenant-matching pass of
`broadcast_for` precisely when the normalizations of the id given at
connect time and of the id targeted by the publish coincide. -/
theorem broadcast_tenant_match_normalized (ws : Nat)
    (raw pub : Option String) (sinks : List Sink) (msg : BroadcastMsg) :
    (connectSink ws raw).oid = normalizeOwner raw ∧
    ((connectSink ws raw) ∈ (broadcast_for sinks pub msg).1 ↔
      (connectSink ws raw) ∈ sinks ∧
        normalizeOwner raw = normalizeOwner pub) := by
  refine ⟨rfl, ?_⟩
  simp [broadcast_for, List.mem_filter, connectSink]

-- ==========================================================
-- C7
-- ==========================================================

/-- C7: `run_command` is a total function of the process outcome (the
embedding of "never raises"): exit code 0 yields `(ok=true, stdout)`, a
non-zero exit yields `(ok=false, stderr)` with stdout as fallback when
stderr is empty, and a missing executable yields `(ok=false, message)`,
as does any other exception. -/
theorem run_command_never_raises_spec (rc : Int) (out err c m : String) :
    (rc ≠ 0 →
      run_command (.completed rc out err)
        = (false, if err = "" then out else err)) ∧
    run_command (.completed 0 out err) = (true, out) ∧
    run_command (.fileNotFound c)
      = (false, "Error: comando no encontrado: " ++ c) ∧
    run_command (.otherError m) = (false, m) := by
  refine ⟨fun h => ?_, rfl, rfl, rfl⟩
  simp [run_command, h]

/-- C7 witness: the non-zero-exit branch at a concrete input. -/
theorem run_command_never_raises_witness :
    run_command (.completed 1 "so" "se") = (false, "se") :=
  (run_command_never_raises_spec 1 "so" "se" "c" "m").1 (by decide)

-- ==========================================================
-- C2
-- ==========================================================

/-- C2 counterexample: a cycle whose `/ping` call succeeds with
`received = "0"` (no exception) persists `latency_ms = 9999`, not null,
refuting the claim that this pass stores a null latency. -/
theorem ping_timeout_latency_not_null_cex :
    (runPingCycleResult (.api [{ received := some "0" }]) 150).latency_ms
        ≠ none ∧
    runPingCycleResult (.api [{ received := some "0" }]) 150
        = ⟨"timeout", some 9999⟩ := by
  constructor
  · intro h
    simp [runPingCycleResult] at h
  · rfl

/-- C2 (amended): a ping cycle in which the RouterOS call succeeds but
returns `received ≠ "1"` persists `{status: "timeout", latency_ms: 9999}`
(the initial 9999.0, not null), and the broadcast event carries the same
values; the null latency occurs exactly on the exception path, which also
broadcasts the same values it persists. -/
theorem ping_cycle_nonexc_timeout_spec (r : PingRow) (rest : List PingRow)
    (th sid : Nat) :
    r.received ≠ some "1" →
    runPingCycleResult (.api (r :: rest)) th = ⟨"timeout", some 9999⟩ ∧
    pingBroadcast sid (runPingCycleResult (.api (r :: rest)) th)
      = ⟨sid, "ping", "timeout", some 9999⟩ ∧
    runPingCycleResult .exc th = ⟨"timeout", none⟩ ∧
    pingBroadcast sid (runPingCycleResult .exc th)
      = ⟨sid, "ping", "timeout", none⟩ := by
  intro h
  simp [runPingCycleResult, pingBroadcast, h]

/-- C2 witness: the `received = "0"` reply at a concrete input. -/
theorem ping_cycle_nonexc_timeout_spec_witness :
    runPingCycleResult (.api [{ received := some "0" }]) 150
      = ⟨"timeout", some 9999⟩ :=
  (ping_cycle_nonexc_timeout_spec { received := some "0" } [] 150 3
    (by decide)).1

-- ==========================================================
-- C3
-- ==========================================================

/-- C3 counterexample: with an empty (or absent) alerts list, a sample
that includes `speed = "1Gbps"` leaves `last_speed` unset — the evaluator
returns before the update — refuting the claim that `last_speed` is
updated also in that case. -/
theorem empty_alerts_skip_speed_update_cex :
    alookup (check_and_trigger_alerts 1
        { status := some "link_up", speed := some "1Gbps" } [] 0
        ⟨[], []⟩).1.lastSpeeds 1 ≠ some "1Gbps" := by decide

/-- C3 (amended): whenever the alerts list is non-empty, a sample whose
result dict contains a `"speed"` key updates the recorded `last_speed`
for the sensor to the sample's speed, regardless of whether any alert
triggered; with an empty or absent alerts list the evaluator returns
early and does not update `last_speed`. -/
theorem last_speed_updated_when_alerts_nonempty (sid : Nat)
    (rd : ResultDict) (alerts : List AlertCfg) (now : Int) (st : AlertState)
    (v : String) :
    alerts ≠ [] → rd.speed = some v →
    alookup (check_and_trigger_alerts sid rd alerts now st).1.lastSpeeds sid
      = some v := by
  intro h hs
  match alerts, h with
  | a :: l, _ =>
    simp only [check_and_trigger_alerts, List.isEmpty_cons, Bool.false_eq_true,
      if_false, hs]
    exact alookup_cons_self _ _ _

/-- C3 witness: one alert configured, speed present, `last_speed` set. -/
theorem last_speed_updated_witness :
    alookup (check_and_trigger_alerts 1
        { status := some "link_up", speed := some "1Gbps" }
        [{ atype := "timeout", channel_id := 2 }] 0 ⟨[], []⟩).1.lastSpeeds 1
      = some "1Gbps" :=
  last_speed_updated_when_alerts_nonempty 1
    { status := some "link_up", speed := some "1Gbps" }
    [{ atype := "timeout", channel_id := 2 }] 0 ⟨[], []⟩ "1Gbps"
    (List.cons_ne_nil _ _) rfl

-- ==========================================================
-- C8
-- ==========================================================

/-- Scanning a digit run accumulates its value into the group
accumulator. -/
theorem searchAux_digits (sfx : List Char) (d : List Char) :
    ∀ (rest : List Char) (n : Nat), (∀ x ∈ d, x.isDigit = true) →
    searchAux sfx (some n) (d ++ rest)
      = searchAux sfx
          (some (d.foldl (fun a x => a * 10 + digitVal x) n)) rest := by
  induction d with
  | nil => intro rest n _; rfl
  | cons c d ih =>
    intro rest n h
    have hc : c.isDigit = true := h c (List.mem_cons_self c d)
    rw [List.cons_append, List.foldl_cons]
    show searchAux sfx (some n) (c :: (d ++ rest)) = _
    rw [searchAux, hc]
    simp only [if_true, Option.getD_some]
    exact ih rest (n * 10 + digitVal c) (fun x hx => h x (List.mem_cons_of_mem c hx))

/-- Starting a scan on a non-empty digit run loads the run's value. -/
theorem searchAux_start_digits (sfx : List Char) (c : Char) (d rest : List Char)
    (hc : c.isDigit = true) (h : ∀ x ∈ d, x.isDigit = true) :
    searchAux sfx none ((c :: d) ++ rest)
      = searchAux sfx (some (digitsVal (c :: d))) rest := by
  rw [List.cons_append, searchAux, hc]
  simp only [if_true, Option.getD_none]
  rw [digitsVal, List.foldl_cons]
  have : (0 : Nat) * 10 + digitVal c = digitVal c := by simp
  rw [this]
  have h0 : (0 : Nat) * 10 + digitVal c = digitVal c := by simp
  exact searchAux_digits sfx d rest (digitVal c) h

/-- C8: the avg-rtt parser of `run_ping_monitor` computes
`s*1000 + ms` for strings of the form `<s>s<ms>ms` with either group
optional, and 0 for an unparseable string: generally over any non-empty
decimal digit groups, and concretely on the spec's examples
"2s350ms" → 2350, "75ms" → 75, "0ms" → 0, "1s" → 1000, and the
unparseable "timeout" → 0. -/
theorem parse_avg_rtt_spec :
    (∀ (c1 c2 : Char) (d1 d2 : List Char),
      c1.isDigit = true → (∀ x ∈ d1, x.isDigit = true) →
      c2.isDigit = true → (∀ x ∈ d2, x.isDigit = true) →
      parseAvgRttL ((c1 :: d1) ++ 's' :: ((c2 :: d2) ++ ['m', 's']))
        = digitsVal (c1 :: d1) * 1000 + digitsVal (c2 :: d2)) ∧
    (∀ (c1 : Char) (d1 : List Char),
      c1.isDigit = true → (∀ x ∈ d1, x.isDigit = true) →
      parseAvgRttL ((c1 :: d1) ++ ['s']) = digitsVal (c1 :: d1) * 1000) ∧
    (∀ (c2 : Char) (d2 : List Char),
      c2.isDigit = true → (∀ x ∈ d2, x.isDigit = true) →
      parseAvgRttL ((c2 :: d2) ++ ['m', 's']) = digitsVal (c2 :: d2)) ∧
    parseAvgRtt "2s350ms" = 2350 ∧ parseAvgRtt "75ms" = 75 ∧
    parseAvgRtt "0ms" = 0 ∧ parseAvgRtt "1s" = 1000 ∧
    parseAvgRtt "timeout" = 0 := by
  refine ⟨?_, ?_, ?_, by decide, by decide, by decide, by decide, by decide⟩
  · intro c1 c2 d1 d2 h1 h1d h2 h2d
    rw [parseAvgRttL]
    have hs : searchNumThen ['s'] ((c1 :: d1) ++ 's' :: ((c2 :: d2) ++ ['m', 's']))
        = some (digitsVal (c1 :: d1)) := by
      rw [searchNumThen, searchAux_start_digits _ _ _ _ h1 h1d, searchAux]
      simp
    have hms : searchNumThen ['m', 's']
        ((c1 :: d1) ++ 's' :: ((c2 :: d2) ++ ['m', 's']))
        = some (digitsVal (c2 :: d2)) := by
      rw [searchNumThen, searchAux_start_digits _ _ _ _ h1 h1d, searchAux]
      simp only [Char.isDigit]
      show searchAux ['m', 's'] none ((c2 :: d2) ++ ['m', 's'])
        = some (digitsVal (c2 :: d2))
      rw [searchAux_start_digits _ _ _ _ h2 h2d, searchAux]
      simp
    rw [hs, hms, Option.getD_some, Option.getD_some]
  · intro c1 d1 h1 h1d
    rw [parseAvgRttL]
    have hs : searchNumThen ['s'] ((c1 :: d1) ++ ['s'])
        = some (digitsVal (c1 :: d1)) := by
      rw [searchNumThen, searchAux_start_digits _ _ _ _ h1 h1d, searchAux]
      simp
    have hms : searchNumThen ['m', 's'] ((c1 :: d1) ++ ['s']) = none := by
      rw [searchNumThen, searchAux_start_digits _ _ _ _ h1 h1d, searchAux]
      simp [searchAux]
    rw [hs, hms]
    simp
  · intro c2 d2 h2 h2d
    rw [parseAvgRttL]
    have hs : searchNumThen ['s'] ((c2 :: d2) ++ ['m', 's']) = none := by
      rw [searchNumThen, searchAux_start_digits _ _ _ _ h2 h2d, searchAux]
      simp [searchAux]
    have hms : searchNumThen ['m', 's'] ((c2 :: d2) ++ ['m', 's'])
        = some (digitsVal (c2 :: d2)) := by
      rw [searchNumThen, searchAux_start_digits _ _ _ _ h2 h2d, searchAux]
      simp
    rw [hs, hms]
    simp

/-- C8 witness: the general form instantiated at "2s5ms". -/
theorem parse_avg_rtt_spec_witness :
    parseAvgRttL (('2' :: []) ++ 's' :: (('5' :: []) ++ ['m', 's']))
      = digitsVal ['2'] * 1000 + digitsVal ['5'] :=
  parse_avg_rtt_spec.1 '2' '5' [] [] (by decide) (by decide) (by decide)
    (by decide)

-- ==========================================================
-- C5
-- ==========================================================

/-- A successful bring-up records the interface with `refcount = prev + 1`
and `up = true`, prepended to the state it was given. -/
theorem vpn_bringup_ok (env : VpnEnv) (st : VpnState) (pid prev : Nat)
    (state' : VpnState) (ifc : String)
    (h : vpn_bringup env st pid prev = .ok (state', ifc)) :
    state' = (pid, ⟨iface_name_for_profile pid, conf_path_for_profile pid,
        prev + 1, true⟩) :: st ∧ ifc = iface_name_for_profile pid := by
  unfold vpn_bringup at h
  split_ifs at h
  exact ⟨(congrArg Prod.fst (Except.ok.inj h)).symm,
    (congrArg Prod.snd (Except.ok.inj h)).symm⟩

/-- Releasing right after a fresh bring-up restores the previous
refcount and keeps the tunnel up. -/
theorem release_after_bringup (env : VpnEnv) (st : VpnState)
    (pid prev : Nat) (state' : VpnState) (ifc : String)
    (h : vpn_bringup env st pid prev = .ok (state', ifc)) :
    (alookup (release_vpn state' pid) pid).map (·.refcount) = some prev ∧
    (alookup (release_vpn state' pid) pid).map (·.up) = some true := by
  obtain ⟨h1, -⟩ := vpn_bringup_ok env st pid prev state' ifc h
  subst h1
  simp [release_vpn, alookup_cons_self]

/-- C5: for every profile, a successful `ensureUp` followed by `release`
leaves the recorded refcount unchanged (0 when there was no state) with
`up = true`; `release` decrements the refcount with a floor of 0, never
changes the `up` flag (tunnels are not torn down), and is a no-op on a
profile with no recorded state. -/
theorem ensure_up_release_roundtrip (env : VpnEnv) (state : VpnState)
    (pid : Nat) :
    (∀ (state' : VpnState) (ifc : String),
      ensure_vpn_up env state pid = .ok (state', ifc) →
      (alookup (release_vpn state' pid) pid).map (·.refcount)
        = some (((alookup state pid).map (·.refcount)).getD 0) ∧
      (alookup (release_vpn state' pid) pid).map (·.up) = some true) ∧
    (alookup state pid = none → release_vpn state pid = state) ∧
    ((alookup (release_vpn state pid) pid).map (·.up)
      = (alookup state pid).map (·.up)) ∧
    ((alookup (release_vpn state pid) pid).map (·.refcount)
      = (alookup state pid).map (fun s => s.refcount - 1)) := by
  refine ⟨?_, ?_, ?_, ?_⟩
  · intro state' ifc h
    unfold ensure_vpn_up at h
    cases hA : alookup state pid with
    | none =>
      rw [hA] at h
      dsimp only at h
      have := release_after_bringup env state pid 0 state' ifc h
      simpa [hA] using this
    | some s =>
      rw [hA] at h
      dsimp only at h
      cases hup : s.up with
      | false =>
        rw [hup] at h
        simp only [Bool.false_eq_true, if_false] at h
        have := release_after_bringup env state pid s.refcount state' ifc h
        simpa [hA] using this
      | true =>
        rw [hup] at h
        simp only [if_true] at h
        cases hc : env.confirmUp with
        | false =>
          rw [hc] at h
          simp only [Bool.false_eq_true, if_false] at h
          have := release_after_bringup env
            ((pid, { s with up := false }) :: state) pid s.refcount state' ifc h
          simpa [hA] using this
        | true =>
          rw [hc] at h
          simp only [if_true, Except.ok.injEq, Prod.mk.injEq] at h
          obtain ⟨h1, -⟩ := h
          subst h1
          simp [release_vpn, alookup_cons_self, hA, hup]
  · intro h
    simp [release_vpn, h]
  · cases hA : alookup state pid <;>
      simp [release_vpn, hA, alookup_cons_self]
  · cases hA : alookup state pid <;>
      simp [release_vpn, hA, alookup_cons_self]

/-- C5 witness: the confirm path at a concrete state with refcount 3. -/
theorem ensure_up_release_roundtrip_witness :
    (alookup (release_vpn
        ((ensure_vpn_up ⟨true, true, true, true, true, true, true⟩
          [(1, ⟨"m360-p1", "m360-p1.conf", 3, true⟩)] 1).toOption.getD
            ([], "")).1 1) 1).map (·.refcount)
      = some ((((alookup ([(1, ⟨"m360-p1", "m360-p1.conf", 3, true⟩)] :
          VpnState) 1).map (·.refcount)).getD 0)) :=
  ((ensure_up_release_roundtrip ⟨true, true, true, true, true, true, true⟩
      [(1, ⟨"m360-p1", "m360-p1.conf", 3, true⟩)] 1).1
    ((1, ⟨"m360-p1", "m360-p1.conf", 4, true⟩) ::
      [(1, ⟨"m360-p1", "m360-p1.conf", 3, true⟩)]) "m360-p1" rfl).1

-- ==========================================================
-- C9
-- ==========================================================

/-- `applyProfileUpd` changes neither the id nor the owner of a row. -/
theorem applyProfileUpd_id_owner (u : VpnProfileUpd) (p : VpnProfileRow) :
    (applyProfileUpd u p).id = p.id ∧
    (applyProfileUpd u p).owner_id = p.owner_id :=
  ⟨rfl, rfl⟩

/-- C9: when an update sets `is_default` to true, `update_vpn_profile`
first clears `is_default` on every profile of the tenant and then sets it
on the targeted row only, so afterwards at most one profile of that
tenant is default; profiles of every other tenant are untouched, so
their at-most-one-default invariant is preserved as well. -/
theorem update_vpn_profile_single_default (db : List VpnProfileRow)
    (profile_id : Nat) (u : VpnProfileUpd) (owner_id : String) :
    u.is_default = some true →
    atMostOneDefault owner_id (update_vpn_profile db profile_id u owner_id) ∧
    (∀ o : String, o ≠ owner_id → atMostOneDefault o db →
      atMostOneDefault o (update_vpn_profile db profile_id u owner_id)) := by
  intro hu
  have hrow : ∀ p ∈ update_vpn_profile db profile_id u owner_id,
      ∃ p0 ∈ db,
        p = (if p0.id = profile_id ∧ p0.owner_id = owner_id then
              applyProfileUpd u
                (if p0.owner_id = owner_id then { p0 with is_default := false }
                 else p0)
             else if p0.owner_id = owner_id then { p0 with is_default := false }
             else p0) := by
    intro p hp
    unfold update_vpn_profile at hp
    rw [hu] at hp
    simp only [if_true, List.map_map, List.mem_map] at hp
    obtain ⟨p0, hp0, heq⟩ := hp
    refine ⟨p0, hp0, ?_⟩
    rw [← heq]
    simp only [Function.comp]
    by_cases h1 : p0.owner_id = owner_id <;>
      by_cases h2 : p0.id = profile_id <;> simp [h1, h2]
  have key : ∀ r r0 : VpnProfileRow,
      r = (if r0.id = profile_id ∧ r0.owner_id = owner_id then
            applyProfileUpd u
              (if r0.owner_id = owner_id then { r0 with is_default := false }
               else r0)
           else if r0.owner_id = owner_id then { r0 with is_default := false }
           else r0) →
      r.owner_id = owner_id → r.is_default = true → r.id = profile_id := by
    intro r r0 hre hro hrd
    by_cases h1 : r0.id = profile_id ∧ r0.owner_id = owner_id
    · rw [hre]
      simp [h1, h1.1, h1.2, applyProfileUpd]
    · by_cases h2 : r0.owner_id = owner_id
      · have hA : ¬ r0.id = profile_id := fun hAA => h1 ⟨hAA, h2⟩
        rw [hre] at hrd
        simp [hA, h2] at hrd
      · rw [hre] at hro
        simp [h1, h2] at hro
  have keep : ∀ (o : String) (r r0 : VpnProfileRow), o ≠ owner_id →
      r = (if r0.id = profile_id ∧ r0.owner_id = owner_id then
            applyProfileUpd u
              (if r0.owner_id = owner_id then { r0 with is_default := false }
               else r0)
           else if r0.owner_id = owner_id then { r0 with is_default := false }
           else r0) →
      r.owner_id = o → r = r0 := by
    intro o r r0 ho hre hro
    by_cases h2 : r0.owner_id = owner_id
    · exfalso
      rw [hre] at hro
      by_cases h1 : r0.id = profile_id ∧ r0.owner_id = owner_id
      · simp [h1, h2, applyProfileUpd] at hro
        exact ho hro.symm
      · have hA : ¬ r0.id = profile_id := fun hAA => h1 ⟨hAA, h2⟩
        simp [hA, h2] at hro
        exact ho hro.symm
    · rw [hre]
      have h1 : ¬(r0.id = profile_id ∧ r0.owner_id = owner_id) := by
        intro hc; exact h2 hc.2
      simp [h1, h2]
  constructor
  · intro p hp q hq hpo hqo hpd hqd
    obtain ⟨p0, -, hpe⟩ := hrow p hp
    obtain ⟨q0, -, hqe⟩ := hrow q hq
    rw [key p p0 hpe hpo hpd, key q q0 hqe hqo hqd]
  · intro o ho hinv p hp q hq hpo hqo hpd hqd
    obtain ⟨p0, hp0, hpe⟩ := hrow p hp
    obtain ⟨q0, hq0, hqe⟩ := hrow q hq
    have hpkeep : p = p0 := keep o p p0 ho hpe hpo
    have hqkeep : q = q0 := keep o q q0 ho hqe hqo
    subst hpkeep
    subst hqkeep
    exact hinv p hp0 q hq0 hpo hqo hpd hqd

/-- C9 witness: a two-profile tenant where the second profile becomes
the default. -/
theorem update_vpn_profile_single_default_witness :
    atMostOneDefault "u1"
      (update_vpn_profile
        [⟨1, "u1", "a", "", "", true⟩, ⟨2, "u1", "b", "", "", false⟩]
        2 { is_default := some true } "u1") :=
  (update_vpn_profile_single_default
      [⟨1, "u1", "a", "", "", true⟩, ⟨2, "u1", "b", "", "", false⟩]
      2 { is_default := some true } "u1" rfl).1

-- ==========================================================
-- C6
-- ==========================================================

/-- Fold invariant for the cooldown: if the recorded fire time of a type
is under cooldown for every alert of that type in the list, the fold
neither fires that type nor changes its recorded time. -/
theorem foldl_processAlert_cooldown (l : List AlertCfg) (sid : Nat)
    (now : Int) (rd : ResultDict) (ty : String) (t : Int) :
    ∀ (acc : AlertState × List Fire),
    alookup acc.1.lastAlertTimes (sid, ty) = some t →
    (∀ b ∈ l, b.atype = ty → now - t < b.cooldown_minutes * 60) →
    (∀ f ∈ acc.2, f.atype ≠ ty) →
    alookup (l.foldl (processAlert sid now rd) acc).1.lastAlertTimes (sid, ty)
        = some t ∧
    (∀ f ∈ (l.foldl (processAlert sid now rd) acc).2, f.atype ≠ ty) := by
  induction l with
  | nil => intro acc h1 _ h3; exact ⟨h1, h3⟩
  | cons b l ih =>
    intro acc h1 hcd h3
    rw [List.foldl_cons]
    rcases acc with ⟨st, fires⟩
    have h1s : alookup st.lastAlertTimes (sid, ty) = some t := h1
    have h3s : ∀ f ∈ fires, f.atype ≠ ty := h3
    by_cases hb : b.atype = ty
    · have hskip : processAlert sid now rd (st, fires) b = (st, fires) := by
        have hcd' : now - t < b.cooldown_minutes * 60 :=
          hcd b (List.mem_cons_self b l) hb
        simp only [processAlert]
        rw [hb, h1s]
        simp [hcd']
      rw [hskip]
      exact ih (st, fires) h1 (fun c hc => hcd c (List.mem_cons_of_mem b hc)) h3
    · have hkey : ((sid, ty) : Nat × String) ≠ (sid, b.atype) := by
        intro hc
        exact hb ((Prod.mk.injEq _ _ _ _ ▸ hc).2).symm
      have h1' : alookup (processAlert sid now rd (st, fires) b).1.lastAlertTimes
          (sid, ty) = some t := by
        simp only [processAlert]
        split
        · exact h1s
        · split
          · exact (alookup_cons_ne st.lastAlertTimes (sid, ty) (sid, b.atype)
              now hkey).trans h1s
          · exact h1s
      have h3' : ∀ f ∈ (processAlert sid now rd (st, fires) b).2, f.atype ≠ ty := by
        simp only [processAlert]
        split
        · exact h3s
        · split
          · intro f hf
            rcases List.mem_append.mp hf with hf1 | hf2
            · exact h3s f hf1
            · rcases List.mem_singleton.mp hf2 with rfl
              exact hb
          · exact h3s
      exact ih _ h1' (fun c hc => hcd c (List.mem_cons_of_mem b hc)) h3'

/-- C6: with distinct alert types in the config (each `(sensor, type)`
cooldown key tracked once), an alert whose recorded last fire is under
its cooldown is skipped by the evaluator call: no notification of that
type is sent (hence no AlertRecord of that type inserted — each emitted
fire is exactly one notification plus one record), and the recorded
`last_fire` of that type is unchanged, which is what enforces that two
fires of the same `(sensor, type)` are at least the cooldown apart. -/
theorem alert_cooldown_skip (sid : Nat) (rd : ResultDict)
    (alerts : List AlertCfg) (now : Int) (st : AlertState) (a : AlertCfg)
    (t : Int) :
    (alerts.map (fun b => b.atype)).Nodup →
    a ∈ alerts →
    alookup st.lastAlertTimes (sid, a.atype) = some t →
    now - t < a.cooldown_minutes * 60 →
    (∀ f ∈ (check_and_trigger_alerts sid rd alerts now st).2,
      f.atype ≠ a.atype) ∧
    alookup (check_and_trigger_alerts sid rd alerts now st).1.lastAlertTimes
        (sid, a.atype) = some t := by
  intro hnd hmem hlast hcd
  have hinj := List.inj_on_of_nodup_map hnd
  have hall : ∀ b ∈ alerts, b.atype = a.atype →
      now - t < b.cooldown_minutes * 60 := by
    intro b hb hty
    have hba : b = a := hinj hb hmem hty
    rw [hba]
    exact hcd
  cases alerts with
  | nil => exact absurd hmem (List.not_mem_nil a)
  | cons b l =>
    have hfold := foldl_processAlert_cooldown (b :: l) sid now rd a.atype t
      (st, []) hlast hall (fun f hf => absurd hf (List.not_mem_nil f))
    simp only [check_and_trigger_alerts, List.isEmpty_cons, Bool.false_eq_true,
      if_false]
    constructor
    · intro f hf
      exact hfold.2 f hf
    · rcases hsp : rd.speed with _ | v
      · exact hfold.1
      · exact hfold.1

/-- C6 witness: a timeout alert with a 5-minute cooldown, last fired 60
seconds ago, does not fire again on a timeout sample. -/
theorem alert_cooldown_skip_witness :
    ¬((⟨"timeout", 7⟩ : Fire) ∈
      (check_and_trigger_alerts 10 { status := some "timeout" }
        [{ atype := "timeout", channel_id := 7, cooldown_minutes := 5 }]
        1060 ⟨[((10, "timeout"), 1000)], []⟩).2) :=
  fun hmem =>
    (alert_cooldown_skip 10 { status := some "timeout" }
        [{ atype := "timeout", channel_id := 7, cooldown_minutes := 5 }]
        1060 ⟨[((10, "timeout"), 1000)], []⟩
        { atype := "timeout", channel_id := 7, cooldown_minutes := 5 } 1000
        (by simp) (List.mem_singleton.mpr rfl) rfl (by decide)).1
      ⟨"timeout", 7⟩ hmem rfl

-- ==========================================================
-- C4
-- ==========================================================

/-- Fold invariant: without a recorded last speed for the sensor, no
`speed_change` fire is emitted (the fold never writes `lastSpeeds`). -/
theorem foldl_processAlert_no_speed_change (l : List AlertCfg) (sid : Nat)
    (now : Int) (rd : ResultDict) :
    ∀ (acc : AlertState × List Fire),
    alookup acc.1.lastSpeeds sid = none →
    (∀ f ∈ acc.2, f.atype ≠ "speed_change") →
    ∀ f ∈ (l.foldl (processAlert sid now rd) acc).2,
      f.atype ≠ "speed_change" := by
  induction l with
  | nil => intro acc _ h3; exact h3
  | cons b l ih =>
    intro acc h1 h3
    rw [List.foldl_cons]
    have h1' : alookup (processAlert sid now rd acc b).1.lastSpeeds sid
        = none := by
      have : (processAlert sid now rd acc b).1.lastSpeeds = acc.1.lastSpeeds := by
        have := foldl_processAlert_lastSpeeds [b] sid now rd acc
        simpa using this
      rw [this]
      exact h1
    have h3' : ∀ f ∈ (processAlert sid now rd acc b).2,
        f.atype ≠ "speed_change" := by
      rcases acc with ⟨st, fires⟩
      have h1s : alookup st.lastSpeeds sid = none := h1
      have h3s : ∀ f ∈ fires, f.atype ≠ "speed_change" := h3
      by_cases hbt : b.atype = "speed_change"
      · have htf : evalTrigger sid rd st b = false := by
          rw [evalTrigger, hbt]
          simp [h1s]
        simp only [processAlert]
        split
        · exact h3s
        · rw [htf]
          simp only [Bool.false_eq_true, if_false]
          exact h3s
      · simp only [processAlert]
        split
        · exact h3s
        · split
          · intro f hf
            rcases List.mem_append.mp hf with hf1 | hf2
            · exact h3s f hf1
            · rcases List.mem_singleton.mp hf2 with rfl
              exact hbt
          · exact h3s
    exact ih _ h1' h3'

/-- C4 counterexample: scenario 5 as the code runs it. After a cycle
recorded speed "1Gbps", a cycle in which the link goes down and the
device reports no rate produces a sample whose speed is the placeholder
"N/A" (the key is never absent), which differs from "1Gbps", so the
speed_change alert DOES fire — refuting the claim that this cycle must
not fire. -/
theorem speed_change_fires_on_na_cex :
    (check_and_trigger_alerts 11
        (ethResultDict (runEthCycleResult
          (.calls (some [{ status := some "no-link" }]) none (some []))))
        [{ atype := "speed_change", channel_id := 7, cooldown_minutes := 5 }]
        1000 ⟨[], [(11, "1Gbps")]⟩).2
      = [⟨"speed_change", 7⟩] := by decide

/-- C4 (amended): a `speed_change` alert fires only when a last recorded
speed exists: the first-ever observation never fires.  But in scenario 5
the down cycle reports speed "N/A" (the sample always carries a speed
key), which differs from the recorded "1Gbps", so that cycle DOES fire,
and a subsequent cycle reporting "100Mbps" 30 seconds later falls inside
the 5-minute cooldown and does not fire. -/
theorem speed_change_first_observation_and_scenario :
    (∀ (sid : Nat) (rd : ResultDict) (alerts : List AlertCfg) (now : Int)
      (st : AlertState),
      alookup st.lastSpeeds sid = none →
      ∀ f ∈ (check_and_trigger_alerts sid rd alerts now st).2,
        f.atype ≠ "speed_change") ∧
    (check_and_trigger_alerts 11
        (ethResultDict (runEthCycleResult
          (.calls (some [{ status := some "no-link" }]) none (some []))))
        [{ atype := "speed_change", channel_id := 7, cooldown_minutes := 5 }]
        1000 ⟨[], [(11, "1Gbps")]⟩)
      = (⟨[((11, "speed_change"), 1000)], [(11, "N/A"), (11, "1Gbps")]⟩,
          [⟨"speed_change", 7⟩]) ∧
    (check_and_trigger_alerts 11
        (ethResultDict (runEthCycleResult
          (.calls
            (some [{ status := some "link-ok", rate := some "100Mbps" }])
            none (some []))))
        [{ atype := "speed_change", channel_id := 7, cooldown_minutes := 5 }]
        1030 ⟨[((11, "speed_change"), 1000)], [(11, "N/A"), (11, "1Gbps")]⟩).2
      = [] := by
  refine ⟨?_, by decide, by decide⟩
  intro sid rd alerts now st h1 f hf
  rcases halerts : alerts with _ | ⟨b, l⟩
  · rw [halerts] at hf
    simp [check_and_trigger_alerts] at hf
  · rw [halerts] at hf
    simp only [check_and_trigger_alerts, List.isEmpty_cons, Bool.false_eq_true,
      if_false] at hf
    have hfires : f ∈ ((b :: l).foldl (processAlert sid now rd) (st, [])).2 := by
      rcases hsp : rd.speed with _ | v
      · simpa [hsp] using hf
      · simpa [hsp] using hf
    exact foldl_processAlert_no_speed_change (b :: l) sid now rd (st, []) h1
      (fun g hg => absurd hg (List.not_mem_nil g)) f hfires

/-- C4 witness: a fresh sensor (no recorded speed) does not fire
speed_change even on a sample carrying a speed. -/
theorem speed_change_first_observation_witness :
    ¬((⟨"speed_change", 7⟩ : Fire) ∈
      (check_and_trigger_alerts 5
        { status := some "link_up", speed := some "1Gbps" }
        [{ atype := "speed_change", channel_id := 7, cooldown_minutes := 5 }]
        0 ⟨[], []⟩).2) :=
  fun hmem =>
    speed_change_first_observation_and_scenario.1 5
      { status := some "link_up", speed := some "1Gbps" }
      [{ atype := "speed_change", channel_id := 7, cooldown_minutes := 5 }]
      0 ⟨[], []⟩ rfl ⟨"speed_change", 7⟩ hmem rfl

end MonitorNetwork
